import Mathlib

/-!
# Waiver-analysis scoring engine: a shallow embedding

This file embeds the waiver-analysis pipeline of the fantasy-football proxy
server (the Express handler `POST /api/espn/waiver-analysis` together with its
helper functions `normalizePositionName`, `getTeamAbbrev`, `getSeasonProjection`,
`getAverageProjection`, `computePriority`, `computeFaabBid`, `buildReasoning`
and `formatPlayerName`) and proves the stated properties of its specification.

Modelling conventions:
* JavaScript numbers are modelled as `ℚ` (the pipeline's arithmetic is exact
  decimal arithmetic on small values; no NaN/Infinity inputs are modelled);
* absent JSON fields are `Option` fields; JavaScript truthiness of a number is
  `≠ 0`, of a string is `≠ ""`, of an optional value is `Option.isSome`;
* the database roster lookup and the upstream free-agent fetch are inputs to
  the handler function: the handler is modelled from the point where both have
  resolved (or the roster lookup has failed with a coded error).
-/

namespace WavierWire

/-- JS `Math.round`: round to the nearest integer, half toward `+∞`. -/
def jsRound (q : ℚ) : ℤ := ⌊q + 1/2⌋

/-- JS `Number.prototype.toFixed(1)`: the sign of the input, then the
one-decimal rendering of its absolute value, with the half-way case rounded
up (ECMA-262 picks the larger candidate digit string). -/
def toFixed1 (q : ℚ) : String :=
  let sign := if q < 0 then "-" else ""
  let n := (⌊|q| * 10 + 1/2⌋).toNat
  sign ++ toString (n / 10) ++ "." ++ toString (n % 10)

/-- JS `String.prototype.toUpperCase` (the inputs of interest are ASCII). -/
def toUpperCase (s : String) : String := String.mk (s.data.map Char.toUpper)

/-- A stat entry of an upstream free-agent record: scoring period (0 = season
aggregate, > 0 = a week), the source discriminator (1 = a projection), and the
applied point total when it is present as a number. The source's
`statSplitTypeId` field is never read by the engine and is omitted. -/
structure StatEntry where
  scoringPeriodId : ℤ
  statSourceId : ℤ
  appliedTotal : Option ℚ
deriving DecidableEq

/-- The `player` sub-record of an upstream free-agent entry. -/
structure PlayerInfo where
  id : ℤ
  fullName : Option String := none
  firstName : Option String := none
  lastName : Option String := none
  displayName : Option String := none
  defaultPositionId : ℤ := 0
  proTeamId : ℤ := 0
deriving DecidableEq

/-- The `ownership` sub-record of an upstream free-agent entry. -/
structure OwnershipInfo where
  percentOwned : Option ℚ := none
  percentChange : Option ℚ := none
deriving DecidableEq

/-- An upstream free-agent record as the handler reads it.  `percentOwned` and
`percentChange` are the flat fallback fields the handler also consults. -/
structure FreeAgentEntry where
  player : Option PlayerInfo
  ownership : Option OwnershipInfo := none
  percentOwned : Option ℚ := none
  percentChange : Option ℚ := none
  stats : Option (List StatEntry) := none
deriving DecidableEq

/-- A row of the local roster query (`my_roster` joined with `players`); only
the `espn_id` column and the row count are read by the handler. -/
structure RosterPlayer where
  espn_id : ℤ
deriving DecidableEq

/-- The priority tier of a recommendation. -/
inductive Priority where
  | HIGH
  | MEDIUM
  | LOW
deriving DecidableEq

/-- An entry of the returned `analysis` list. -/
structure Recommendation where
  id : ℤ
  name : String
  position : String
  team : String
  ownershipPct : ℚ
  seasonProjection : ℚ
  avgProjection : ℚ
  priority : Priority
  faabBid : String
  reasoning : String
deriving DecidableEq

/-- The returned `summary` object. -/
structure Summary where
  highPriority : ℕ
  mediumPriority : ℕ
  lowPriority : ℕ
  totalAnalyzed : ℕ
  rosterDepth : ℕ
deriving DecidableEq

/-- The handler's JSON response body. -/
structure WaiverResponse where
  analysis : List Recommendation
  summary : Summary
deriving DecidableEq

/-- The request-body fields the scoring pipeline reads (`season` is only
forwarded to the upstream fetch and is not modelled). -/
structure WaiverRequest where
  position : Option String := none
  currentPlayerIds : List ℤ := []
  limit : Option ℤ := none
deriving DecidableEq

/-- The error codes the handler's roster-lookup `catch` distinguishes:
PostgreSQL `42P01` (missing table), `ECONNREFUSED`, and everything else. -/
inductive DbErrorCode where
  | missingTable
  | connRefused
  | other
deriving DecidableEq

/-- `POSITION_SLOT_MAP` of the source. -/
def POSITION_SLOT_MAP (pos : String) : Option ℤ :=
  if pos = "QB" then some 0
  else if pos = "RB" then some 2
  else if pos = "WR" then some 4
  else if pos = "TE" then some 6
  else if pos = "D/ST" then some 16
  else if pos = "DST" then some 16
  else if pos = "DEF" then some 16
  else if pos = "K" then some 17
  else if pos = "PK" then some 17
  else none

/-- `POSITION_ID_TO_NAME` of the source. -/
def POSITION_ID_TO_NAME (positionId : ℤ) : Option String :=
  if positionId = 0 then some "QB"
  else if positionId = 1 then some "TQB"
  else if positionId = 2 then some "RB"
  else if positionId = 3 then some "RB/WR"
  else if positionId = 4 then some "WR"
  else if positionId = 5 then some "WR/TE"
  else if positionId = 6 then some "TE"
  else if positionId = 7 then some "OP"
  else if positionId = 16 then some "D/ST"
  else if positionId = 17 then some "K"
  else none

/-- `PRO_TEAM_ABBREVIATIONS` of the source (the `abbrev` field). -/
def PRO_TEAM_ABBREVIATIONS (teamId : ℤ) : Option String :=
  if teamId = 1 then some "ATL" else if teamId = 2 then some "BUF"
  else if teamId = 3 then some "CHI" else if teamId = 4 then some "CIN"
  else if teamId = 5 then some "CLE" else if teamId = 6 then some "DAL"
  else if teamId = 7 then some "DEN" else if teamId = 8 then some "DET"
  else if teamId = 9 then some "GB" else if teamId = 10 then some "TEN"
  else if teamId = 11 then some "IND" else if teamId = 12 then some "KC"
  else if teamId = 13 then some "LV" else if teamId = 14 then some "LAR"
  else if teamId = 15 then some "MIA" else if teamId = 16 then some "MIN"
  else if teamId = 17 then some "NE" else if teamId = 18 then some "NO"
  else if teamId = 19 then some "NYG" else if teamId = 20 then some "NYJ"
  else if teamId = 21 then some "PHI" else if teamId = 22 then some "ARI"
  else if teamId = 23 then some "PIT" else if teamId = 24 then some "LAC"
  else if teamId = 25 then some "SF" else if teamId = 26 then some "SEA"
  else if teamId = 27 then some "TB" else if teamId = 28 then some "WAS"
  else if teamId = 29 then some "CAR" else if teamId = 30 then some "JAX"
  else if teamId = 33 then some "BAL" else if teamId = 34 then some "HOU"
  else none

/-- `ROSTER_DEPTH_TARGETS` of the source. -/
def ROSTER_DEPTH_TARGETS (pos : String) : Option ℕ :=
  if pos = "QB" then some 2
  else if pos = "RB" then some 4
  else if pos = "WR" then some 5
  else if pos = "TE" then some 2
  else if pos = "D/ST" then some 1
  else if pos = "K" then some 1
  else none

/-- `normalizePositionName` of the source: uppercase the input (empty or
missing becomes the empty string), fold the D/ST and PK aliases, and default
the empty string to RB. -/
def normalizePositionName (position : Option String) : String :=
  let value := toUpperCase (position.getD "")
  if value = "DST" ∨ value = "DEF" ∨ value = "D/ST" then "D/ST"
  else if value = "PK" then "K"
  else if value = "" then "RB"
  else value

/-- `getTeamAbbrev` of the source: the abbreviation table, defaulting to FA. -/
def getTeamAbbrev (teamId : ℤ) : String :=
  (PRO_TEAM_ABBREVIATIONS teamId).getD "FA"

/-- The fallback of `getSeasonProjection`: the first scoring-period-0 entry,
its applied total when that is a number, else 0. -/
def seasonFallback (stats : List StatEntry) : ℚ :=
  match stats.find? (fun stat => stat.scoringPeriodId == 0) with
  | some fallback => fallback.appliedTotal.getD 0
  | none => 0

/-- `getSeasonProjection` of the source: the first season-aggregate
(scoring-period 0) projection-tagged (source 1) entry with a numeric applied
total; else the first scoring-period-0 entry; else 0. -/
def getSeasonProjection (stats : List StatEntry) : ℚ :=
  match stats.find? (fun stat => stat.scoringPeriodId == 0 && stat.statSourceId == 1) with
  | some projected =>
    match projected.appliedTotal with
    | some v => v
    | none => seasonFallback stats
  | none => seasonFallback stats

/-- `getAverageProjection` of the source: the mean applied total over the
weekly (scoring-period > 0) projection-tagged entries with a numeric applied
total, falling back to all weekly entries with a numeric applied total, and 0
when that pool is empty too. -/
def getAverageProjection (stats : List StatEntry) : ℚ :=
  let projected := stats.filter fun stat =>
    decide (0 < stat.scoringPeriodId) && stat.statSourceId == 1 && stat.appliedTotal.isSome
  let pool :=
    if projected.isEmpty then
      stats.filter fun stat => decide (0 < stat.scoringPeriodId) && stat.appliedTotal.isSome
    else projected
  if pool.isEmpty then 0
  else (pool.map fun stat => stat.appliedTotal.getD 0).sum / (pool.length : ℚ)

/-- `computePriority` of the source: the additive score, then the tier. -/
def computePriority (percentOwned avgProjection : ℚ) (rosterDepth rosterTarget : ℕ) :
    Priority :=
  let score : ℕ := 0
  let score := score + (if percentOwned ≥ 70 then 2 else if percentOwned ≥ 45 then 1 else 0)
  let score := score + (if avgProjection ≥ 14 then 2 else if avgProjection ≥ 10 then 1 else 0)
  let score := score + (if rosterDepth < rosterTarget then 1 else 0)
  if score ≥ 4 then Priority.HIGH
  else if score ≥ 2 then Priority.MEDIUM
  else Priority.LOW

/-- `computeFaabBid` of the source. -/
def computeFaabBid (priority : Priority) (percentOwned avgProjection : ℚ) : String :=
  let baseline := max (percentOwned / 3) avgProjection
  match priority with
  | Priority.HIGH => toString (min 40 (max 12 (jsRound baseline))) ++ "%"
  | Priority.MEDIUM => toString (min 25 (max 5 (jsRound (baseline * (7/10))))) ++ "%"
  | Priority.LOW => toString (min 10 (max 0 (jsRound (baseline * (3/10))))) ++ "%"

/-- The parts list of `buildReasoning`, in the source's push order.  The source
pushes the projection parts under JS truthiness (`if (avgProjection)`), i.e.
whenever the number is non-zero. -/
def reasoningParts (percentOwned avgProjection seasonProjection : ℚ)
    (rosterDepth rosterTarget : ℕ) (percentChange : Option ℚ) : List String :=
  (if percentOwned > 0 then [toFixed1 percentOwned ++ "% rostered"] else []) ++
  (match percentChange with
   | some change =>
     if change ≠ 0 then
       [(if change > 0 then "+" else "") ++ toFixed1 change ++ "% week-over-week"]
     else []
   | none => []) ++
  (if avgProjection ≠ 0 then [toFixed1 avgProjection ++ " projected pts"] else []) ++
  (if seasonProjection ≠ 0 then [toFixed1 seasonProjection ++ " season outlook"] else []) ++
  (if rosterDepth < rosterTarget then ["Adds needed depth"] else [])

/-- `buildReasoning` of the source.  The source joins the parts with the
(verbatim) separator string and falls back to the fixed sentence when the
joined string is empty; as every part is a non-empty string, that is exactly
the case of an empty parts list. -/
def buildReasoning (percentOwned avgProjection seasonProjection : ℚ)
    (rosterDepth rosterTarget : ℕ) (percentChange : Option ℚ) : String :=
  let parts := reasoningParts percentOwned avgProjection seasonProjection
    rosterDepth rosterTarget percentChange
  if parts.isEmpty then "Available upgrade on the waiver wire"
  else String.intercalate " â€¢ " parts

/-- `formatPlayerName` of the source, from the `firstName`/`lastName` pair on. -/
def formatNameFallback (p : PlayerInfo) : String :=
  let first := p.firstName.getD ""
  let last := p.lastName.getD ""
  let combined := (first ++ " " ++ last).trim
  if combined = "" then
    match p.displayName with
    | some d => if d = "" then "Unknown Player" else d
    | none => "Unknown Player"
  else combined

/-- `formatPlayerName` of the source. -/
def formatPlayerName (player : Option PlayerInfo) : String :=
  match player with
  | none => "Unknown Player"
  | some p =>
    match p.fullName with
    | some fn => if fn = "" then formatNameFallback p else fn
    | none => formatNameFallback p

/-- `Number(entry.player.id)` guarded by the handler's truthiness filter;
0 stands for the absent player (such an entry is filtered out before use). -/
def playerIdOf (entry : FreeAgentEntry) : ℤ :=
  match entry.player with
  | some p => p.id
  | none => 0

/-- The handler's `priorityOrder` table. -/
def priorityOrder : Priority → ℕ
  | Priority.HIGH => 0
  | Priority.MEDIUM => 1
  | Priority.LOW => 2

/-- The handler's sort comparator, as the Boolean relation "`a` sorts no later
than `b`": strictly smaller priority rank, or equal rank and an avgProjection
at least as large (the comparator returns `b.avgProjection - a.avgProjection`
on rank ties). -/
def recLE (a b : Recommendation) : Bool :=
  priorityOrder a.priority < priorityOrder b.priority ||
    (priorityOrder a.priority == priorityOrder b.priority &&
      decide (b.avgProjection ≤ a.avgProjection))

/-- The body of the handler's `.map`: one scored recommendation. -/
def scoreEntry (position : String) (rosterDepth rosterTarget : ℕ)
    (entry : FreeAgentEntry) : Recommendation :=
  let percentOwned :=
    ((entry.ownership.bind fun o => o.percentOwned).orElse fun _ => entry.percentOwned).getD 0
  let percentChange :=
    (entry.ownership.bind fun o => o.percentChange).orElse fun _ => entry.percentChange
  let stats := entry.stats.getD []
  let seasonProjection := getSeasonProjection stats
  let avgProjection := getAverageProjection stats
  let priority := computePriority percentOwned avgProjection rosterDepth rosterTarget
  { id := playerIdOf entry
    name := formatPlayerName entry.player
    position :=
      (POSITION_ID_TO_NAME (match entry.player with
        | some p => p.defaultPositionId
        | none => 0)).getD position
    team := getTeamAbbrev (match entry.player with
      | some p => p.proTeamId
      | none => 0)
    ownershipPct := percentOwned
    seasonProjection := seasonProjection
    avgProjection := avgProjection
    priority := priority
    faabBid := computeFaabBid priority percentOwned avgProjection
    reasoning := buildReasoning percentOwned avgProjection seasonProjection
      rosterDepth rosterTarget percentChange }

/-- The handler's `analysis` pipeline: keep entries with a truthy player id,
drop the already-owned ids, score, sort by tier then descending avgProjection
(the JS sort is stable and its comparator is a total preorder, so the result
is the `mergeSort` by `recLE`), and truncate to `limit`. -/
def analysisOf (position : String) (rosterEspnIds : List ℤ)
    (rosterDepth rosterTarget limit : ℕ) (freeAgents : List FreeAgentEntry) :
    List Recommendation :=
  ((((freeAgents.filter fun entry => entry.player.isSome && playerIdOf entry != 0).filter
      fun entry => !(decide (playerIdOf entry ∈ rosterEspnIds))).map
      (scoreEntry position rosterDepth rosterTarget)).mergeSort recLE).take limit

/-- The handler's `summary` object. -/
def summaryOf (analysis : List Recommendation) (rosterDepth : ℕ) : Summary :=
  { highPriority := (analysis.filter fun r => r.priority == Priority.HIGH).length
    mediumPriority := (analysis.filter fun r => r.priority == Priority.MEDIUM).length
    lowPriority := (analysis.filter fun r => r.priority == Priority.LOW).length
    totalAnalyzed := analysis.length
    rosterDepth := rosterDepth }

/-- The handler's `limit`: default 25 when absent, 25 again for a zero value
(JS `Number(requestedLimit) || 25`), then `Math.max(1, Math.min(50, n))`. -/
def effectiveLimit (requestedLimit : Option ℤ) : ℤ :=
  let n := requestedLimit.getD 25
  let n := if n = 0 then 25 else n
  max 1 (min 50 n)

/-- The handler's upstream slot id: `POSITION_SLOT_MAP[position] ?? 0`. -/
def slotIdFor (position : String) : ℤ := (POSITION_SLOT_MAP position).getD 0

/-- The handler's roster-depth target: `ROSTER_DEPTH_TARGETS[position] ?? 2`. -/
def rosterTargetFor (position : String) : ℕ := (ROSTER_DEPTH_TARGETS position).getD 2

/-- The waiver-analysis handler from the point where the roster lookup and the
free-agent fetch have resolved.  A roster-lookup failure with code `42P01` or
`ECONNREFUSED` degrades to an empty roster; any other roster-lookup failure is
the 500 response `Failed to load roster data`.  The exclusion set is the union
of the roster-derived espn ids and the caller's `currentPlayerIds`, both with
falsy (zero) values dropped. -/
def waiverAnalysis (req : WaiverRequest)
    (rosterResult : Except DbErrorCode (List RosterPlayer))
    (freeAgents : List FreeAgentEntry) : Except String WaiverResponse :=
  let position := normalizePositionName req.position
  let limit := (effectiveLimit req.limit).toNat
  let rosterTarget := rosterTargetFor position
  match rosterResult with
  | Except.error DbErrorCode.other => Except.error "Failed to load roster data"
  | _ =>
    let rosterPlayers : List RosterPlayer :=
      match rosterResult with
      | Except.ok rows => rows
      | Except.error _ => []
    let rosterEspnIds :=
      ((rosterPlayers.map fun p => p.espn_id) ++ req.currentPlayerIds).filter fun i => i != 0
    let rosterDepth := rosterPlayers.length
    let analysis := analysisOf position rosterEspnIds rosterDepth rosterTarget limit freeAgents
    Except.ok { analysis := analysis, summary := summaryOf analysis rosterDepth }

/-- The roster rows the handler ends up using: the queried rows on success,
the empty list after a tolerated lookup failure. -/
def rosterRowsOf (rosterResult : Except DbErrorCode (List RosterPlayer)) :
    List RosterPlayer :=
  match rosterResult with
  | Except.ok rows => rows
  | Except.error _ => []

/-- The handler's 200-response body for given roster rows: the same pipeline
`waiverAnalysis` runs on its non-error paths, packaged for reuse in proofs. -/
def okResponse (req : WaiverRequest) (rosterRows : List RosterPlayer)
    (freeAgents : List FreeAgentEntry) : WaiverResponse :=
  let position := normalizePositionName req.position
  let rosterEspnIds :=
    ((rosterRows.map fun p => p.espn_id) ++ req.currentPlayerIds).filter fun i => i != 0
  let analysis := analysisOf position rosterEspnIds rosterRows.length
    (rosterTargetFor position) (effectiveLimit req.limit).toNat freeAgents
  { analysis := analysis, summary := summaryOf analysis rosterRows.length }

/-- Concrete fixture: a request for QB recommendations excluding player 7. -/
def reqC1 : WaiverRequest :=
  { position := some "QB", currentPlayerIds := [7], limit := some 5 }

/-- Concrete fixture: a bare free-agent entry, player id 5, no stats. -/
def entryC1 : FreeAgentEntry :=
  { player := some { id := 5, fullName := some "Al Smith" } }

/-- The recommendation the pipeline produces for `entryC1` at roster depth 0. -/
def recC1 : Recommendation :=
  { id := 5, name := "Al Smith", position := "QB", team := "FA",
    ownershipPct := 0, seasonProjection := 0, avgProjection := 0,
    priority := Priority.LOW, faabBid := "0%", reasoning := "Adds needed depth" }

/-- The full response for `reqC1` with an empty roster and `[entryC1]`. -/
def outC1 : WaiverResponse :=
  { analysis := [recC1],
    summary := { highPriority := 0, mediumPriority := 0, lowPriority := 1,
                 totalAnalyzed := 1, rosterDepth := 0 } }

/-!
## Specification-side definitions

These follow the wording of the specification (not the source) and exist to be
compared with the source-derived definitions above.
-/

/-- Spec: "+2 points if ownershipPct ≥ 70; else +1 if ownershipPct ≥ 45; else +0." -/
def specOwnershipPoints (ownershipPct : ℚ) : ℕ :=
  if ownershipPct ≥ 70 then 2 else if ownershipPct ≥ 45 then 1 else 0

/-- Spec: "+2 points if avgProjection ≥ 14; else +1 if avgProjection ≥ 10; else +0." -/
def specProjectionPoints (avgProjection : ℚ) : ℕ :=
  if avgProjection ≥ 14 then 2 else if avgProjection ≥ 10 then 1 else 0

/-- Spec: "+1 point if rosterDepth < target depth for the position." -/
def specDepthPoint (rosterDepth rosterTarget : ℕ) : ℕ :=
  if rosterDepth < rosterTarget then 1 else 0

/-- Spec: "total ≥ 4 → HIGH; total ≥ 2 → MEDIUM; else LOW." -/
def specTier (total : ℕ) : Priority :=
  if total ≥ 4 then Priority.HIGH
  else if total ≥ 2 then Priority.MEDIUM
  else Priority.LOW

/-- Spec: `clamp(x, lo, hi)`. -/
def specClamp (x lo hi : ℤ) : ℤ := min hi (max lo x)

/-- Spec: the conditional-mean form of `avgProjection`: the mean of the weekly
projection-tagged entries (those carrying a numeric applied total); the mean of
all weekly entries when no weekly entry is projection-tagged; 0 when no weekly
entries exist. -/
def specAvgProjection (stats : List StatEntry) : ℚ :=
  let weeklyProjected := stats.filter fun stat =>
    decide (0 < stat.scoringPeriodId) && stat.statSourceId == 1 && stat.appliedTotal.isSome
  let weeklyAll := stats.filter fun stat =>
    decide (0 < stat.scoringPeriodId) && stat.appliedTotal.isSome
  if weeklyProjected ≠ [] then
    (weeklyProjected.map fun stat => stat.appliedTotal.getD 0).sum / (weeklyProjected.length : ℚ)
  else if weeklyAll ≠ [] then
    (weeklyAll.map fun stat => stat.appliedTotal.getD 0).sum / (weeklyAll.length : ℚ)
  else 0

/-- The reasoning parts exactly as claim C7 states them: the two projection
parts qualify only for a strictly positive value. -/
def claimReasoningParts (percentOwned avgProjection seasonProjection : ℚ)
    (rosterDepth rosterTarget : ℕ) (percentChange : Option ℚ) : List String :=
  (if percentOwned > 0 then [toFixed1 percentOwned ++ "% rostered"] else []) ++
  (match percentChange with
   | some change =>
     if change ≠ 0 then
       [(if change > 0 then "+" else "") ++ toFixed1 change ++ "% week-over-week"]
     else []
   | none => []) ++
  (if avgProjection > 0 then [toFixed1 avgProjection ++ " projected pts"] else []) ++
  (if seasonProjection > 0 then [toFixed1 seasonProjection ++ " season outlook"] else []) ++
  (if rosterDepth < rosterTarget then ["Adds needed depth"] else [])

/-- The reasoning string exactly as claim C7 states it. -/
def claimReasoning (percentOwned avgProjection seasonProjection : ℚ)
    (rosterDepth rosterTarget : ℕ) (percentChange : Option ℚ) : String :=
  let parts := claimReasoningParts percentOwned avgProjection seasonProjection
    rosterDepth rosterTarget percentChange
  if parts.isEmpty then "Available upgrade on the waiver wire"
  else String.intercalate " â€¢ " parts

/-- The reasoning parts with the claim amended at the two projection parts:
they qualify for any non-zero value (JS truthiness), not only a positive one. -/
def amendedReasoningParts (percentOwned avgProjection seasonProjection : ℚ)
    (rosterDepth rosterTarget : ℕ) (percentChange : Option ℚ) : List String :=
  (if percentOwned > 0 then [toFixed1 percentOwned ++ "% rostered"] else []) ++
  (match percentChange with
   | some change =>
     if change ≠ 0 then
       [(if change > 0 then "+" else "") ++ toFixed1 change ++ "% week-over-week"]
     else []
   | none => []) ++
  (if avgProjection ≠ 0 then [toFixed1 avgProjection ++ " projected pts"] else []) ++
  (if seasonProjection ≠ 0 then [toFixed1 seasonProjection ++ " season outlook"] else []) ++
  (if rosterDepth < rosterTarget then ["Adds needed depth"] else [])

/-- The amended reasoning string: fixed order, bullet separator, fixed
fallback sentence when no part qualifies. -/
def amendedReasoning (percentOwned avgProjection seasonProjection : ℚ)
    (rosterDepth rosterTarget : ℕ) (percentChange : Option ℚ) : String :=
  let parts := amendedReasoningParts percentOwned avgProjection seasonProjection
    rosterDepth rosterTarget percentChange
  if parts.isEmpty then "Available upgrade on the waiver wire"
  else String.intercalate " â€¢ " parts

/-!
## Claim theorems
-/

/-- C2: the priority is exactly the tier of the additive score — +2/+1/0 from
ownershipPct at the thresholds 70 and 45, +2/+1/0 from avgProjection at the
thresholds 14 and 10, +1 when rosterDepth is below the target — with HIGH at
total ≥ 4, MEDIUM at total ≥ 2, LOW otherwise; and the thresholds are exact:
ownershipPct 70 scores 2, 45 scores 1, 44.999 scores 0, avgProjection 14
scores 2 and 10 scores 1. -/
theorem computePriority_matches_rubric :
    (∀ (percentOwned avgProjection : ℚ) (rosterDepth rosterTarget : ℕ),
      computePriority percentOwned avgProjection rosterDepth rosterTarget =
        specTier (specOwnershipPoints percentOwned + specProjectionPoints avgProjection +
          specDepthPoint rosterDepth rosterTarget)) ∧
    specOwnershipPoints 70 = 2 ∧ specOwnershipPoints 45 = 1 ∧
    specOwnershipPoints (44999/1000) = 0 ∧
    specProjectionPoints 14 = 2 ∧ specProjectionPoints 10 = 1 := by
  refine ⟨fun percentOwned avgProjection rosterDepth rosterTarget => ?_, ?_, ?_, ?_, ?_, ?_⟩
  · unfold computePriority specTier specOwnershipPoints specProjectionPoints specDepthPoint
    simp only [Nat.zero_add]
  · norm_num [specOwnershipPoints]
  · norm_num [specOwnershipPoints]
  · norm_num [specOwnershipPoints]
  · norm_num [specProjectionPoints]
  · norm_num [specProjectionPoints]

/-- C3: the suggested bid is the clamped rounding of the baseline
`max(ownershipPct / 3, avgProjection)` — [12,40] for HIGH, `* 0.7` into [5,25]
for MEDIUM, `* 0.3` into [0,10] for LOW — rendered as the integer followed by
a percent sign; and on the spec's scenario (ownershipPct 75, avgProjection 16,
rosterDepth 1, target 4) the tier is HIGH and the bid is "25%". -/
theorem computeFaabBid_matches_spec :
    (∀ (percentOwned avgProjection : ℚ),
      computeFaabBid Priority.HIGH percentOwned avgProjection =
        toString (specClamp (jsRound (max (percentOwned / 3) avgProjection)) 12 40) ++ "%" ∧
      computeFaabBid Priority.MEDIUM percentOwned avgProjection =
        toString (specClamp (jsRound (max (percentOwned / 3) avgProjection * (7/10))) 5 25) ++ "%" ∧
      computeFaabBid Priority.LOW percentOwned avgProjection =
        toString (specClamp (jsRound (max (percentOwned / 3) avgProjection * (3/10))) 0 10) ++ "%") ∧
    computePriority 75 16 1 4 = Priority.HIGH ∧
    computeFaabBid Priority.HIGH 75 16 = "25%" := by
  refine ⟨fun percentOwned avgProjection => ⟨rfl, rfl, rfl⟩, by decide, ?_⟩
  have h1 : max ((75:ℚ)/3) 16 = 25 := by
    rw [show (75:ℚ)/3 = 25 by norm_num]
    exact max_eq_left (by norm_num)
  have h2 : jsRound 25 = 25 := by norm_num [jsRound]
  unfold computeFaabBid
  rw [h1]
  show toString (min 40 (max 12 (jsRound 25))) ++ "%" = "25%"
  rw [h2]
  decide

/-- C8: `getAverageProjection` is the mean of `appliedTotal` over the weekly
projection-tagged entries, over all weekly entries when no weekly entry is
projection-tagged, and 0 when no weekly entries exist. -/
theorem getAverageProjection_matches_spec :
    ∀ stats : List StatEntry, getAverageProjection stats = specAvgProjection stats := by
  intro stats
  unfold getAverageProjection specAvgProjection
  by_cases h1 : (stats.filter fun stat =>
      decide (0 < stat.scoringPeriodId) && stat.statSourceId == 1 && stat.appliedTotal.isSome) = []
  · by_cases h2 : (stats.filter fun stat =>
        decide (0 < stat.scoringPeriodId) && stat.appliedTotal.isSome) = []
    · simp [h1, h2]
    · simp [h1, h2]
  · simp [h1]

/-- C7 counterexample: at ownershipPct 0, avgProjection −1, seasonProjection 0,
rosterDepth 5, target 4 and no percent change, the code's reasoning keeps the
projected-points part (JS truthiness: non-zero) while the claim's "only if
avgProjection > 0" would drop every part and fall back. -/
theorem buildReasoning_claim_counterexample :
    buildReasoning 0 (-1) 0 5 4 none ≠ claimReasoning 0 (-1) 0 5 4 none := by
  have hfix : toFixed1 (-1) = "-1.0" := by
    have h10 : (⌊|(-1:ℚ)| * 10 + 1/2⌋ : ℤ) = 10 := by norm_num
    unfold toFixed1
    rw [h10]
    norm_num
    decide
  have hb : buildReasoning 0 (-1) 0 5 4 none = "-1.0 projected pts" := by
    unfold buildReasoning reasoningParts
    norm_num [hfix]
    decide
  have hc : claimReasoning 0 (-1) 0 5 4 none = "Available upgrade on the waiver wire" := by
    unfold claimReasoning claimReasoningParts
    norm_num
  rw [hb, hc]
  decide

/-- C7 (amended): the reasoning string is the bullet-joined concatenation, in
the fixed order, of exactly the qualifying parts — ownership only if positive,
week-over-week change only if present and non-zero (sign-prefixed), projected
points and season outlook only if non-zero (JS truthiness, where the claim said
positive), depth only if rosterDepth < target — with the fixed fallback
sentence when no part qualifies. -/
theorem buildReasoning_matches_amended_claim :
    ∀ (percentOwned avgProjection seasonProjection : ℚ)
      (rosterDepth rosterTarget : ℕ) (percentChange : Option ℚ),
      buildReasoning percentOwned avgProjection seasonProjection
          rosterDepth rosterTarget percentChange =
        amendedReasoning percentOwned avgProjection seasonProjection
          rosterDepth rosterTarget percentChange := by
  intro percentOwned avgProjection seasonProjection rosterDepth rosterTarget percentChange
  rfl

/-!
## Pipeline lemmas
-/

/-- Every non-`other`-error run of the handler is the 200 response obtained
from the roster rows it ends up using. -/
lemma waiverAnalysis_eq (req : WaiverRequest)
    (rosterResult : Except DbErrorCode (List RosterPlayer))
    (freeAgents : List FreeAgentEntry)
    (h : rosterResult ≠ Except.error DbErrorCode.other) :
    waiverAnalysis req rosterResult freeAgents =
      Except.ok (okResponse req (rosterRowsOf rosterResult) freeAgents) := by
  match rosterResult with
  | Except.ok rows => rfl
  | Except.error DbErrorCode.missingTable => rfl
  | Except.error DbErrorCode.connRefused => rfl
  | Except.error DbErrorCode.other => exact absurd rfl h

/-- A successful run's body is `okResponse` at the used roster rows. -/
lemma waiverAnalysis_ok_implies {req : WaiverRequest}
    {rosterResult : Except DbErrorCode (List RosterPlayer)}
    {freeAgents : List FreeAgentEntry} {out : WaiverResponse}
    (h : waiverAnalysis req rosterResult freeAgents = Except.ok out) :
    out = okResponse req (rosterRowsOf rosterResult) freeAgents := by
  match rosterResult with
  | Except.ok rows => exact (Except.ok.inj h).symm
  | Except.error DbErrorCode.missingTable => exact (Except.ok.inj h).symm
  | Except.error DbErrorCode.connRefused => exact (Except.ok.inj h).symm
  | Except.error DbErrorCode.other => exact Except.noConfusion h

/-- The pipeline on an empty free-agent list yields the empty list. -/
lemma analysisOf_nil (position : String) (rosterEspnIds : List ℤ)
    (rosterDepth rosterTarget limit : ℕ) :
    analysisOf position rosterEspnIds rosterDepth rosterTarget limit [] = [] := by
  unfold analysisOf
  simp [List.mergeSort_nil]

/-- The handler on an empty roster and no free agents: the empty analysis and
the all-zero summary. -/
lemma waiverAnalysis_empty (req : WaiverRequest) :
    waiverAnalysis req (Except.ok []) [] =
      Except.ok { analysis := [],
                  summary := { highPriority := 0, mediumPriority := 0,
                               lowPriority := 0, totalAnalyzed := 0,
                               rosterDepth := 0 } } := by
  rw [waiverAnalysis_eq req (Except.ok []) [] (by simp)]
  simp only [okResponse, rosterRowsOf]
  rw [analysisOf_nil]
  rfl

/-- Truncation caps the pipeline's output length at `limit`. -/
lemma length_analysisOf_le (position : String) (rosterEspnIds : List ℤ)
    (rosterDepth rosterTarget limit : ℕ) (freeAgents : List FreeAgentEntry) :
    (analysisOf position rosterEspnIds rosterDepth rosterTarget limit freeAgents).length ≤
      limit := by
  unfold analysisOf
  simp [List.length_take]

/-- Every recommendation the pipeline emits comes from a free-agent entry that
passed both filters. -/
lemma mem_analysisOf {position : String} {rosterEspnIds : List ℤ}
    {rosterDepth rosterTarget limit : ℕ} {freeAgents : List FreeAgentEntry}
    {rec : Recommendation}
    (h : rec ∈ analysisOf position rosterEspnIds rosterDepth rosterTarget limit freeAgents) :
    ∃ entry, entry ∈ freeAgents ∧ playerIdOf entry ≠ 0 ∧
      playerIdOf entry ∉ rosterEspnIds ∧
      rec = scoreEntry position rosterDepth rosterTarget entry := by
  unfold analysisOf at h
  have h1 := List.mem_of_mem_take h
  rw [List.mem_mergeSort] at h1
  rcases List.mem_map.mp h1 with ⟨entry, hmem, hrec⟩
  rcases List.mem_filter.mp hmem with ⟨hmem2, hpred2⟩
  rcases List.mem_filter.mp hmem2 with ⟨hmem3, hpred1⟩
  refine ⟨entry, hmem3, ?_, ?_, hrec.symm⟩
  · have hp := hpred1
    simp only [Bool.and_eq_true, bne_iff_ne] at hp
    exact hp.2
  · simpa using hpred2

/-- The sort relation is transitive. -/
lemma recLE_trans : ∀ a b c : Recommendation,
    recLE a b = true → recLE b c = true → recLE a c = true := by
  intro a b c hab hbc
  simp only [recLE, Bool.or_eq_true, Bool.and_eq_true, beq_iff_eq,
    decide_eq_true_eq] at hab hbc ⊢
  rcases hab with h1 | ⟨h1, h1q⟩ <;> rcases hbc with h2 | ⟨h2, h2q⟩
  · exact Or.inl (by omega)
  · exact Or.inl (by omega)
  · exact Or.inl (by omega)
  · exact Or.inr ⟨by omega, le_trans h2q h1q⟩

/-- The sort relation is total. -/
lemma recLE_total : ∀ a b : Recommendation, (recLE a b || recLE b a) = true := by
  intro a b
  simp only [recLE, Bool.or_eq_true, Bool.and_eq_true, beq_iff_eq,
    decide_eq_true_eq]
  rcases Nat.lt_trichotomy (priorityOrder a.priority) (priorityOrder b.priority)
    with h | h | h
  · exact Or.inl (Or.inl h)
  · rcases le_total b.avgProjection a.avgProjection with hq | hq
    · exact Or.inl (Or.inr ⟨h, hq⟩)
    · exact Or.inr (Or.inr ⟨h.symm, hq⟩)
  · exact Or.inr (Or.inl h)

/-- The pipeline's output is pairwise ordered: tier ranks ascend, and on equal
tiers the average projection does not increase. -/
lemma pairwise_analysisOf (position : String) (rosterEspnIds : List ℤ)
    (rosterDepth rosterTarget limit : ℕ) (freeAgents : List FreeAgentEntry) :
    (analysisOf position rosterEspnIds rosterDepth rosterTarget limit freeAgents).Pairwise
      (fun a b => priorityOrder a.priority ≤ priorityOrder b.priority ∧
        (a.priority = b.priority → b.avgProjection ≤ a.avgProjection)) := by
  have hs := List.sorted_mergeSort recLE_trans recLE_total
    (((freeAgents.filter fun entry => entry.player.isSome && playerIdOf entry != 0).filter
      fun entry => !(decide (playerIdOf entry ∈ rosterEspnIds))).map
      (scoreEntry position rosterDepth rosterTarget))
  refine List.Pairwise.imp ?_ (List.Pairwise.sublist (List.take_sublist _ _) hs)
  intro a b hab
  simp only [recLE, Bool.or_eq_true, Bool.and_eq_true, beq_iff_eq,
    decide_eq_true_eq] at hab
  rcases hab with hlt | ⟨heq, hle⟩
  · refine ⟨Nat.le_of_lt hlt, fun hpr => ?_⟩
    rw [hpr] at hlt
    exact absurd hlt (lt_irrefl _)
  · exact ⟨Nat.le_of_eq heq, fun _ => hle⟩

/-- The LOW bid at zero ownership and zero projection is `0%`. -/
lemma computeFaabBid_low_zero : computeFaabBid Priority.LOW 0 0 = "0%" := by
  have h0 : jsRound (max ((0:ℚ)/3) 0 * (3/10)) = 0 := by norm_num [jsRound]
  unfold computeFaabBid
  show toString (min 10 (max 0 (jsRound (max ((0:ℚ)/3) 0 * (3/10))))) ++ "%" = "0%"
  rw [h0]
  decide

/-- Scoring the bare fixture entry gives the fixture recommendation. -/
lemma scoreEntry_entryC1 : scoreEntry "QB" 0 2 entryC1 = recC1 := by
  have h1 : scoreEntry "QB" 0 2 entryC1 =
      { recC1 with faabBid := computeFaabBid Priority.LOW 0 0 } := rfl
  rw [h1, computeFaabBid_low_zero]
  rfl

/-- The handler's full run on the fixtures. -/
lemma waiverAnalysis_evalC1 :
    waiverAnalysis reqC1 (Except.ok []) [entryC1] = Except.ok outC1 := by
  have h2 : waiverAnalysis reqC1 (Except.ok []) [entryC1] =
      Except.ok { analysis := (([scoreEntry "QB" 0 2 entryC1]).mergeSort recLE).take 5,
                  summary :=
                    summaryOf ((([scoreEntry "QB" 0 2 entryC1]).mergeSort recLE).take 5) 0 } :=
    rfl
  rw [h2, scoreEntry_entryC1, List.mergeSort_singleton]
  rfl

/-- C1: no returned recommendation carries an id from the exclusion set — the
union of the roster-derived espn ids and the caller's `currentPlayerIds`. -/
theorem waiverAnalysis_never_recommends_owned (req : WaiverRequest)
    (rosterRows : List RosterPlayer) (freeAgents : List FreeAgentEntry)
    (out : WaiverResponse) (rec : Recommendation)
    (h : waiverAnalysis req (Except.ok rosterRows) freeAgents = Except.ok out)
    (hmem : rec ∈ out.analysis) :
    rec.id ∉ rosterRows.map (fun p => p.espn_id) ∧ rec.id ∉ req.currentPlayerIds := by
  rw [waiverAnalysis_ok_implies h] at hmem
  have hmem2 : rec ∈ analysisOf (normalizePositionName req.position)
      (((rosterRows.map fun p => p.espn_id) ++ req.currentPlayerIds).filter fun i => i != 0)
      rosterRows.length (rosterTargetFor (normalizePositionName req.position))
      (effectiveLimit req.limit).toNat freeAgents := hmem
  obtain ⟨entry, _, hne, hnotin, hrec⟩ := mem_analysisOf hmem2
  have hid : rec.id = playerIdOf entry := by
    rw [hrec]
    rfl
  constructor
  · intro hin
    refine hnotin (List.mem_filter.mpr ⟨List.mem_append_left _ ?_, ?_⟩)
    · exact hid ▸ hin
    · simpa using hne
  · intro hin
    refine hnotin (List.mem_filter.mpr ⟨List.mem_append_right _ ?_, ?_⟩)
    · exact hid ▸ hin
    · simpa using hne

/-- C1 witness: the concrete run keeps player 5, which is neither among the
(empty) roster ids nor among the excluded current ids. -/
theorem waiverAnalysis_never_recommends_owned_witness :
    recC1.id ∉ ([] : List RosterPlayer).map (fun p => p.espn_id) ∧
      recC1.id ∉ reqC1.currentPlayerIds :=
  waiverAnalysis_never_recommends_owned reqC1 [] [entryC1] outC1 recC1
    waiverAnalysis_evalC1 (by decide)

/-- C4: the returned analysis is pairwise ordered — HIGH entries precede
MEDIUM entries precede LOW entries (tier ranks ascend), and inside a tier the
average projection does not increase. -/
theorem analysis_sorted_by_tier_then_projection (req : WaiverRequest)
    (rosterResult : Except DbErrorCode (List RosterPlayer))
    (freeAgents : List FreeAgentEntry) (out : WaiverResponse)
    (h : waiverAnalysis req rosterResult freeAgents = Except.ok out) :
    out.analysis.Pairwise
      (fun a b => priorityOrder a.priority ≤ priorityOrder b.priority ∧
        (a.priority = b.priority → b.avgProjection ≤ a.avgProjection)) := by
  rw [waiverAnalysis_ok_implies h]
  exact pairwise_analysisOf _ _ _ _ _ _

/-- C4 witness: at a concrete empty run the returned analysis is ordered. -/
theorem analysis_sorted_witness :
    (WaiverResponse.mk []
        (Summary.mk 0 0 0 0 0)).analysis.Pairwise
      (fun a b => priorityOrder a.priority ≤ priorityOrder b.priority ∧
        (a.priority = b.priority → b.avgProjection ≤ a.avgProjection)) :=
  analysis_sorted_by_tier_then_projection
    { position := some "RB", currentPlayerIds := [], limit := some 3 }
    (Except.ok []) [] (WaiverResponse.mk [] (Summary.mk 0 0 0 0 0))
    (waiverAnalysis_empty _)

/-- C5: the effective limit is clamped into [1, 50] and caps the analysis
length; a requested 0 falls back to the default 25, a negative request clamps
to 1, 1000 clamps to 50, and an omitted limit defaults to 25. -/
theorem limit_clamped_and_respected (req : WaiverRequest)
    (rosterResult : Except DbErrorCode (List RosterPlayer))
    (freeAgents : List FreeAgentEntry) (out : WaiverResponse)
    (h : waiverAnalysis req rosterResult freeAgents = Except.ok out) :
    (1 ≤ effectiveLimit req.limit ∧ effectiveLimit req.limit ≤ 50 ∧
      out.analysis.length ≤ (effectiveLimit req.limit).toNat) ∧
    effectiveLimit (some 0) = 25 ∧ effectiveLimit (some (-7)) = 1 ∧
    effectiveLimit (some 1000) = 50 ∧ effectiveLimit none = 25 := by
  refine ⟨⟨?_, ?_, ?_⟩, by decide, by decide, by decide, by decide⟩
  · simp only [effectiveLimit]
    split <;> omega
  · simp only [effectiveLimit]
    split <;> omega
  · rw [waiverAnalysis_ok_implies h]
    exact length_analysisOf_le _ _ _ _ _ _

/-- C5 witness: a concrete run requesting 1000 comes back capped. -/
theorem limit_clamped_witness :
    (1 ≤ effectiveLimit (some 1000) ∧ effectiveLimit (some 1000) ≤ 50 ∧
      (WaiverResponse.mk [] (Summary.mk 0 0 0 0 0)).analysis.length ≤
        (effectiveLimit (some 1000)).toNat) ∧
    effectiveLimit (some 0) = 25 ∧ effectiveLimit (some (-7)) = 1 ∧
    effectiveLimit (some 1000) = 50 ∧ effectiveLimit none = 25 :=
  limit_clamped_and_respected
    { position := some "WR", currentPlayerIds := [], limit := some 1000 }
    (Except.ok []) [] (WaiverResponse.mk [] (Summary.mk 0 0 0 0 0))
    (waiverAnalysis_empty _)

/-- C6: a roster lookup failing with the missing-table or connection-refused
code is never fatal: the handler behaves exactly as with an empty roster, and
still returns a 200 body whose summary reports roster depth 0. -/
theorem roster_failure_degrades_gracefully (req : WaiverRequest)
    (freeAgents : List FreeAgentEntry) (code : DbErrorCode)
    (h : code = DbErrorCode.missingTable ∨ code = DbErrorCode.connRefused) :
    waiverAnalysis req (Except.error code) freeAgents =
      waiverAnalysis req (Except.ok []) freeAgents ∧
    ∃ out, waiverAnalysis req (Except.error code) freeAgents = Except.ok out ∧
      out.summary.rosterDepth = 0 := by
  rcases h with h | h <;> subst h
  · exact ⟨rfl, okResponse req [] freeAgents, rfl, rfl⟩
  · exact ⟨rfl, okResponse req [] freeAgents, rfl, rfl⟩

/-- C6 witness: the concrete missing-table run degrades gracefully. -/
theorem roster_failure_degrades_witness :
    waiverAnalysis { position := some "K", currentPlayerIds := [], limit := none }
        (Except.error DbErrorCode.missingTable) [] =
      waiverAnalysis { position := some "K", currentPlayerIds := [], limit := none }
        (Except.ok []) [] ∧
    ∃ out, waiverAnalysis { position := some "K", currentPlayerIds := [], limit := none }
        (Except.error DbErrorCode.missingTable) [] = Except.ok out ∧
      out.summary.rosterDepth = 0 :=
  roster_failure_degrades_gracefully
    { position := some "K", currentPlayerIds := [], limit := none } []
    DbErrorCode.missingTable (Or.inl rfl)

/-- C9: the scoring computation is a deterministic function of its inputs —
two runs on equal requests, roster results and free-agent lists return equal
responses (the pipeline reads no clock and no randomness). -/
theorem waiverAnalysis_deterministic (req₁ req₂ : WaiverRequest)
    (rosterResult₁ rosterResult₂ : Except DbErrorCode (List RosterPlayer))
    (freeAgents₁ freeAgents₂ : List FreeAgentEntry)
    (h1 : req₁ = req₂) (h2 : rosterResult₁ = rosterResult₂)
    (h3 : freeAgents₁ = freeAgents₂) :
    waiverAnalysis req₁ rosterResult₁ freeAgents₁ =
      waiverAnalysis req₂ rosterResult₂ freeAgents₂ := by
  subst h1
  subst h2
  subst h3
  rfl

/-- C9 witness: the two concrete equal runs agree. -/
theorem waiverAnalysis_deterministic_witness :
    waiverAnalysis reqC1 (Except.ok []) [entryC1] =
      waiverAnalysis reqC1 (Except.ok []) [entryC1] :=
  waiverAnalysis_deterministic reqC1 reqC1 (Except.ok []) (Except.ok [])
    [entryC1] [entryC1] rfl rfl rfl

/-- C10: a position string that uppercases to none of the canonical labels or
aliases is not rejected: it is passed through uppercased, its slot id defaults
to 0 (the QB slot), its roster-depth target defaults to 2, and the handler
still answers 200; an empty or missing position defaults to RB. -/
theorem unknown_position_passthrough (s : String) (currentPlayerIds : List ℤ)
    (lim : Option ℤ) (rosterRows : List RosterPlayer)
    (freeAgents : List FreeAgentEntry)
    (h : toUpperCase s ∉
      ["QB", "RB", "WR", "TE", "D/ST", "K", "DST", "DEF", "PK", ""]) :
    normalizePositionName (some s) = toUpperCase s ∧
    slotIdFor (normalizePositionName (some s)) = 0 ∧
    rosterTargetFor (normalizePositionName (some s)) = 2 ∧
    (waiverAnalysis
        { position := some s, currentPlayerIds := currentPlayerIds, limit := lim }
        (Except.ok rosterRows) freeAgents).isOk = true ∧
    normalizePositionName none = "RB" ∧ normalizePositionName (some "") = "RB" := by
  simp only [List.mem_cons, List.mem_singleton, not_or] at h
  obtain ⟨hQB, hRB, hWR, hTE, hDST2, hK, hDST, hDEF, hPK, hE, -⟩ := h
  have hval : normalizePositionName (some s) = toUpperCase s := by
    unfold normalizePositionName
    simp only [Option.getD_some]
    rw [if_neg (by tauto), if_neg hPK, if_neg hE]
  refine ⟨hval, ?_, ?_, ?_, by decide, by decide⟩
  · rw [hval]
    unfold slotIdFor POSITION_SLOT_MAP
    simp [hQB, hRB, hWR, hTE, hDST2, hK, hDST, hDEF, hPK]
  · rw [hval]
    unfold rosterTargetFor ROSTER_DEPTH_TARGETS
    simp [hQB, hRB, hWR, hTE, hDST2, hK]
  · rw [waiverAnalysis_eq _ _ _ (by simp)]
    rfl

/-- C10 witness: the concrete unknown position "XX" passes through. -/
theorem unknown_position_passthrough_witness :
    normalizePositionName (some "XX") = toUpperCase "XX" ∧
    slotIdFor (normalizePositionName (some "XX")) = 0 ∧
    rosterTargetFor (normalizePositionName (some "XX")) = 2 ∧
    (waiverAnalysis
        { position := some "XX", currentPlayerIds := [], limit := none }
        (Except.ok []) []).isOk = true ∧
    normalizePositionName none = "RB" ∧ normalizePositionName (some "") = "RB" :=
  unknown_position_passthrough "XX" [] none [] [] (by decide)

end WavierWire
